import Mathlib

/-!
Shallow embedding of the Route Efficiency Analyzer's scoring, ranking,
normalizing and orchestration code, together with theorems checking the
specification's claims against it.

Numeric conventions: Python ints are modelled as `ℤ` (lengths as `ℕ` where
the source obtains them from `len`), Python floats as `ℚ` (the scoring
arithmetic is exact decimal arithmetic on these programs' inputs), Python
`None`-able values as `Option`.  `list(set(xs))` is modelled as `List.dedup`
(the claims touched by it depend only on membership, distinct count and
duplicate-freeness, which are order-independent).
-/

namespace RouteEff

/-- Python `list(set(xs))` on a list of platform names: duplicates collapsed
(order modelled as first occurrences; the spec treats the order as
irrelevant). -/
def pySet (xs : List String) : List String := xs.dedup

/-! ## Scoring engine — `backend/utils/scoring.py` -/

/-- `calculate_efficiency_score` from `backend/utils/scoring.py` (identical to
`JupiterSmartSwap._calculate_efficiency_score` in `jupiter_smart_swap.py`). -/
def calculate_efficiency_score (hops : ℤ) (price_impact : ℚ)
    (platforms : List String) (slippage_bps : ℤ) : ℚ :=
  let hop_score : ℚ := 1 / ((max hops 1 : ℤ) : ℚ)
  let price_impact_score : ℚ := 1 - min price_impact 1
  let platform_diversity : ℚ :=
    min (((pySet platforms).length : ℚ) / ((max hops 1 : ℤ) : ℚ)) 1
  let slippage_score : ℚ := 1 - (slippage_bps : ℚ) / 10000
  hop_score * 0.3 + price_impact_score * 0.4 +
    platform_diversity * 0.2 + slippage_score * 0.1

/-- `calculate_speed_score` from `backend/utils/scoring.py`.  Note
`compute_units / 1000` is Python true division, hence rational division
here. -/
def calculate_speed_score (hops time_to_route compute_units : ℤ) : ℚ :=
  let hop_score : ℚ := 1 / ((max hops 1 : ℤ) : ℚ)
  let time_score : ℚ := 1 / ((max time_to_route 1 : ℤ) : ℚ)
  let compute_score : ℚ := 1 / max ((compute_units : ℚ) / 1000) 1
  hop_score * 0.5 + time_score * 0.3 + compute_score * 0.2

/-- `calculate_cost_score` from `backend/utils/scoring.py`. -/
def calculate_cost_score (price_impact : ℚ) (compute_units out_amount : ℤ) : ℚ :=
  let price_score : ℚ := 1 - min price_impact 1
  let gas_score : ℚ := 1 / max ((compute_units : ℚ) / 1000) 1
  let amount_score : ℚ := (out_amount : ℚ) / 1000000
  price_score * 0.6 + gas_score * 0.3 + amount_score * 0.1

/-- `get_score_by_criteria` from `backend/utils/scoring.py`: string dispatch
with a silent fall-through to the efficiency policy. -/
def get_score_by_criteria (criteria : String) (hops : ℤ) (price_impact : ℚ)
    (platforms : List String) (slippage_bps time_to_route compute_units
    out_amount : ℤ) : ℚ :=
  if criteria = "efficiency" then
    calculate_efficiency_score hops price_impact platforms slippage_bps
  else if criteria = "speed" then
    calculate_speed_score hops time_to_route compute_units
  else if criteria = "cost" then
    calculate_cost_score price_impact compute_units out_amount
  else
    calculate_efficiency_score hops price_impact platforms slippage_bps

/-! Scoring weights from `route_efficiency_analyzer/constants.py`. -/

def HOP_WEIGHT : ℚ := 0.3
def PRICE_IMPACT_WEIGHT : ℚ := 0.4
def PLATFORM_DIVERSITY_WEIGHT : ℚ := 0.2
def SLIPPAGE_WEIGHT : ℚ := 0.1

/-- `calculate_route_efficiency_score` from
`route_efficiency_analyzer/utils.py` (the `normalized_amount` local is
computed and then unused, as in the source). -/
def calculate_route_efficiency_score (out_amount hops : ℤ) (price_impact : ℚ)
    (platforms : List String) (slippage_bps : ℤ) : ℚ :=
  let _normalized_amount : ℚ := (out_amount : ℚ) / 1000000
  let hop_score : ℚ := 1 / ((max hops 1 : ℤ) : ℚ)
  let price_impact_score : ℚ := 1 - min price_impact 1
  let platform_diversity : ℚ :=
    min (((pySet platforms).length : ℚ) / ((max hops 1 : ℤ) : ℚ)) 1
  let slippage_score : ℚ := 1 - (slippage_bps : ℚ) / 10000
  hop_score * HOP_WEIGHT + price_impact_score * PRICE_IMPACT_WEIGHT +
    platform_diversity * PLATFORM_DIVERSITY_WEIGHT +
    slippage_score * SLIPPAGE_WEIGHT

/-! ## Theorems for the scoring claims -/

/-- C1: for every route summary with hop count `h`, price impact `p`,
platform list `P` and request slippage `s` bps, the Efficiency score equals
`0.3·(1/max(h,1)) + 0.4·(1 − min(p,1)) + 0.2·min(|distinct P|/max(h,1), 1)
+ 0.1·(1 − s/10000)`. -/
theorem efficiency_score_formula (h : ℤ) (p : ℚ) (P : List String) (s : ℤ) :
    calculate_efficiency_score h p P s =
      0.3 * (1 / ((max h 1 : ℤ) : ℚ)) + 0.4 * (1 - min p 1) +
      0.2 * min ((P.dedup.length : ℚ) / ((max h 1 : ℤ) : ℚ)) 1 +
      0.1 * (1 - (s : ℚ) / 10000) := by
  unfold calculate_efficiency_score pySet
  ring

/-- C5: for every criteria string outside {"efficiency", "speed", "cost"},
`get_score_by_criteria` returns exactly the score the Efficiency criteria
would give on the same route fields and slippage. -/
theorem unknown_criteria_scores_as_efficiency (c : String)
    (hc1 : c ≠ "efficiency") (hc2 : c ≠ "speed") (hc3 : c ≠ "cost")
    (h : ℤ) (p : ℚ) (P : List String) (s t cu out : ℤ) :
    get_score_by_criteria c h p P s t cu out =
      get_score_by_criteria "efficiency" h p P s t cu out := by
  unfold get_score_by_criteria
  simp [hc1, hc2, hc3]

/-- Witness for C5 at the concrete unknown criteria string "priority". -/
theorem unknown_criteria_scores_as_efficiency_witness :
    get_score_by_criteria "priority" 2 (1/100) ["Orca", "Raydium"] 50 100 5000 1000000 =
      get_score_by_criteria "efficiency" 2 (1/100) ["Orca", "Raydium"] 50 100 5000 1000000 :=
  unknown_criteria_scores_as_efficiency "priority" (by decide) (by decide)
    (by decide) 2 (1/100) ["Orca", "Raydium"] 50 100 5000 1000000

/-- C6: scoring with `hop_count = 0` gives exactly the same score as with
`hop_count = 1`, under every criteria string (hence under each of the three
policies and the fall-through): every division on the hop count floors its
denominator at 1. -/
theorem hop_count_zero_scores_as_one (c : String) (p : ℚ) (P : List String)
    (s t cu out : ℤ) :
    get_score_by_criteria c 0 p P s t cu out =
      get_score_by_criteria c 1 p P s t cu out := by
  unfold get_score_by_criteria calculate_efficiency_score calculate_speed_score
    calculate_cost_score
  norm_num

/-- The `route_efficiency_analyzer` variant of the efficiency score computes
the same value as the backend one (the weights are the same constants and
the normalized amount is unused). -/
theorem calculate_route_efficiency_score_eq (out h : ℤ) (p : ℚ)
    (P : List String) (s : ℤ) :
    calculate_route_efficiency_score out h p P s =
      calculate_efficiency_score h p P s := by
  unfold calculate_route_efficiency_score calculate_efficiency_score
    HOP_WEIGHT PRICE_IMPACT_WEIGHT PLATFORM_DIVERSITY_WEIGHT SLIPPAGE_WEIGHT
  ring

/-- C10: for hops ≥ 0, price impact ≥ 0 and slippage in `[0, 10000]`, the
Efficiency score — computed by either implementation — lies in the closed
interval `[0, 1]`. -/
theorem efficiency_score_in_unit_interval (h : ℤ) (p : ℚ) (P : List String)
    (s out : ℤ) (_hh : 0 ≤ h) (hp : 0 ≤ p) (hs0 : 0 ≤ s) (hs1 : s ≤ 10000) :
    (0 ≤ calculate_efficiency_score h p P s ∧
      calculate_efficiency_score h p P s ≤ 1) ∧
    (0 ≤ calculate_route_efficiency_score out h p P s ∧
      calculate_route_efficiency_score out h p P s ≤ 1) := by
  rw [calculate_route_efficiency_score_eq, and_self]
  unfold calculate_efficiency_score
  have hm : (1 : ℚ) ≤ ((max h 1 : ℤ) : ℚ) := by
    exact_mod_cast le_max_right h 1
  have hm0 : (0 : ℚ) < ((max h 1 : ℤ) : ℚ) := lt_of_lt_of_le one_pos hm
  have h1 : (0 : ℚ) < 1 / ((max h 1 : ℤ) : ℚ) := by positivity
  have h2 : 1 / ((max h 1 : ℤ) : ℚ) ≤ 1 := by
    rw [div_le_one hm0]; exact hm
  have h3 : (0 : ℚ) ≤ min p 1 := le_min hp zero_le_one
  have h4 : min p 1 ≤ 1 := min_le_right p 1
  have h5 : (0 : ℚ) ≤ min (((pySet P).length : ℚ) / ((max h 1 : ℤ) : ℚ)) 1 := by
    apply le_min _ zero_le_one
    positivity
  have h6 : min (((pySet P).length : ℚ) / ((max h 1 : ℤ) : ℚ)) 1 ≤ 1 :=
    min_le_right _ 1
  have h7 : (0 : ℚ) ≤ (s : ℚ) / 10000 := by positivity
  have h8 : (s : ℚ) / 10000 ≤ 1 := by
    rw [div_le_one (by norm_num)]
    exact_mod_cast hs1
  constructor <;> nlinarith

/-- Witness for C10 at a concrete route (2 hops, impact 1/200, two platforms,
50 bps slippage). -/
theorem efficiency_score_in_unit_interval_witness :
    (0 ≤ calculate_efficiency_score 2 (1/200) ["Orca", "Raydium"] 50 ∧
      calculate_efficiency_score 2 (1/200) ["Orca", "Raydium"] 50 ≤ 1) ∧
    (0 ≤ calculate_route_efficiency_score 980000 2 (1/200) ["Orca", "Raydium"] 50 ∧
      calculate_route_efficiency_score 980000 2 (1/200) ["Orca", "Raydium"] 50 ≤ 1) :=
  efficiency_score_in_unit_interval 2 (1/200) ["Orca", "Raydium"] 50 980000
    (by norm_num) (by norm_num) (by norm_num) (by norm_num)

/-! ## Ranker — `route_efficiency_analyzer/analyzer.py` -/

/-- Python's `sorted(l, key=key, reverse=True)` on a rational-valued key:
a stable descending sort, modelled as insertion sort under the total
preorder `key b ≤ key a`. -/
def pySortDesc {α : Type} (key : α → ℚ) (l : List α) : List α :=
  l.insertionSort (fun a b => key b ≤ key a)

theorem pySortDesc_perm {α : Type} (key : α → ℚ) (l : List α) :
    List.Perm (pySortDesc key l) l :=
  List.perm_insertionSort _ l

theorem pySortDesc_sorted {α : Type} (key : α → ℚ) (l : List α) :
    (pySortDesc key l).Sorted (fun a b => key b ≤ key a) := by
  haveI : IsTotal α (fun a b => key b ≤ key a) :=
    ⟨fun a b => le_total (key b) (key a)⟩
  haveI : IsTrans α (fun a b => key b ≤ key a) :=
    ⟨fun _ _ _ h1 h2 => le_trans h2 h1⟩
  exact List.sorted_insertionSort _ l

theorem filter_key_orderedInsert {α : Type} (key : α → ℚ) (q : ℚ) (a : α)
    (l : List α) :
    (l.orderedInsert (fun a b => key b ≤ key a) a).filter
        (fun x => decide (key x = q)) =
      if key a = q then a :: l.filter (fun x => decide (key x = q))
      else l.filter (fun x => decide (key x = q)) := by
  induction l with
  | nil =>
    by_cases ha : key a = q <;> simp [List.orderedInsert, ha]
  | cons b l ih =>
    by_cases hab : key b ≤ key a
    · rw [List.orderedInsert, if_pos hab]
      by_cases ha : key a = q <;> simp [List.filter_cons, ha]
    · rw [List.orderedInsert, if_neg hab]
      have hlt : key a < key b := lt_of_not_le hab
      by_cases hb : key b = q
      · have ha : ¬ key a = q := by
          intro ha; rw [ha, hb] at hlt; exact lt_irrefl q hlt
        simp [List.filter_cons, hb, ha, ih]
      · by_cases ha : key a = q <;> simp [List.filter_cons, hb, ha, ih]

theorem pySortDesc_stable {α : Type} (key : α → ℚ) (l : List α) (q : ℚ) :
    (pySortDesc key l).filter (fun x => decide (key x = q)) =
      l.filter (fun x => decide (key x = q)) := by
  induction l with
  | nil => rfl
  | cons a l ih =>
    show (List.orderedInsert _ a (pySortDesc key l)).filter _ = _
    rw [filter_key_orderedInsert]
    by_cases ha : key a = q
    · rw [if_pos ha, ih]
      simp [List.filter_cons, ha]
    · rw [if_neg ha, ih]
      simp [List.filter_cons, ha]

/-- Route summary record of the `route_efficiency_analyzer` pipeline: the
fields produced by `format_route_summary` in
`route_efficiency_analyzer/utils.py` plus the `efficiency_score` key added by
`analyze_routes`. -/
structure ScoredRoute where
  route_id : String
  out_amount : ℤ
  hops : ℕ
  platforms : List String
  price_impact : ℚ
  slippage_bps : ℤ
  compute_units : ℤ
  time_to_route : ℤ
  efficiency_score : ℚ
deriving Repr, DecidableEq, Inhabited

/-- `rank_routes` from `route_efficiency_analyzer/analyzer.py`:
`sorted(analyzed_routes, key=lambda r: r.efficiency_score, reverse=True)`. -/
def rank_routes (analyzed_routes : List ScoredRoute) : List ScoredRoute :=
  pySortDesc (fun r => r.efficiency_score) analyzed_routes

/-- Python slice `l[:n]` for an arbitrary integer `n`: stop index is `n`
clamped to `[0, len l]`, counting from the end when `n < 0`. -/
def pySlice {α : Type} (l : List α) (n : ℤ) : List α :=
  l.take (if 0 ≤ n then n.toNat else ((l.length : ℤ) + n).toNat)

/-- `get_top_routes` from `route_efficiency_analyzer/analyzer.py`:
`rank_routes(analyzed_routes)[:top_n]`. -/
def get_top_routes (analyzed_routes : List ScoredRoute) (top_n : ℤ) :
    List ScoredRoute :=
  pySlice (rank_routes analyzed_routes) top_n

/-- C7: `rank_routes` returns a permutation of its input whose scores are
pairwise non-increasing, and the sort is stable: for every score value `q`,
the routes scoring `q` appear in the output in their input order. -/
theorem rank_routes_sorted_desc_stable (rs : List ScoredRoute) :
    List.Perm (rank_routes rs) rs ∧
    (rank_routes rs).Sorted
      (fun a b => b.efficiency_score ≤ a.efficiency_score) ∧
    ∀ q : ℚ,
      (rank_routes rs).filter (fun x => decide (x.efficiency_score = q)) =
        rs.filter (fun x => decide (x.efficiency_score = q)) :=
  ⟨pySortDesc_perm _ _, pySortDesc_sorted _ _,
    fun q => pySortDesc_stable _ _ q⟩

/-- Concrete scored routes used as counterexample/witness inputs. -/
def exRoute1 : ScoredRoute :=
  ⟨"r1", 1000000, 1, ["Raydium"], 1/1000, 50, 5000, 150, 9/10⟩

def exRoute2 : ScoredRoute :=
  ⟨"r2", 980000, 1, ["Orca"], 1/500, 50, 3000, 100, 4/5⟩

/-- C2 counterexample: the claim says every `n ≤ 0` yields the empty
sequence, but `get_top_routes` on two routes with `n = -1` returns one
element (Python slice `[:-1]`). -/
theorem get_top_routes_neg_not_empty :
    get_top_routes [exRoute1, exRoute2] (-1) ≠ [] := by
  have : get_top_routes [exRoute1, exRoute2] (-1) = [exRoute1] := by
    unfold get_top_routes rank_routes pySortDesc pySlice
    norm_num [List.insertionSort, List.orderedInsert, exRoute1, exRoute2]
  rw [this]
  simp

/-- C2 (amended): for `n ≥ 0`, `get_top_routes` returns the first
`min(n, len routes)` elements of the descending ranking (so `n = 0` yields
the empty sequence); for `n < 0` it follows Python slice semantics,
returning the ranking without its last `min(-n, len)` elements — empty only
when `-n ≥ len`. -/
theorem get_top_routes_slice_spec (rs : List ScoredRoute) (n : ℤ) :
    (0 ≤ n → get_top_routes rs n = (rank_routes rs).take n.toNat ∧
      (get_top_routes rs n).length = min n.toNat rs.length) ∧
    (n < 0 →
      get_top_routes rs n = (rank_routes rs).take (rs.length - (-n).toNat) ∧
      (get_top_routes rs n).length = rs.length - min (-n).toNat rs.length) := by
  have hlen : (rank_routes rs).length = rs.length :=
    (pySortDesc_perm _ _).length_eq
  constructor
  · intro hn
    unfold get_top_routes pySlice
    rw [if_pos hn]
    exact ⟨rfl, by rw [List.length_take, hlen]⟩
  · intro hn
    unfold get_top_routes pySlice
    rw [if_neg (not_le.mpr hn)]
    constructor
    · congr 1
      rw [hlen]
      omega
    · rw [List.length_take, hlen]
      omega

/-- Witness for C2 (amended) at `n = 1` on two concrete routes. -/
theorem get_top_routes_slice_spec_witness :
    (get_top_routes [exRoute1, exRoute2] 1).length =
      min (1 : ℤ).toNat [exRoute1, exRoute2].length :=
  ((get_top_routes_slice_spec [exRoute1, exRoute2] 1).1 (by decide)).2

/-! ## Route descriptor normalizers

Raw routes are loosely-structured JSON records; each field a normalizer may
read is modelled as an `Option` (`none` = key absent). -/

/-- One entry of a raw route's `swapSteps` list (shape read by
`jupiter_smart_swap.py` and `route_efficiency_analyzer/utils.py`). -/
structure SwapStep where
  platform : Option String
deriving Repr, DecidableEq

/-- A raw route record as read by `JupiterSmartSwap.analyze_routes` and
`format_route_summary` (keys `routeId`, `outAmount`, `swapSteps`,
`priceImpact`, `slippageBps`, `computeUnits`, `timeToRoute`). -/
structure RawRoute where
  routeId : Option String := none
  outAmount : Option ℤ := none
  swapSteps : Option (List SwapStep) := none
  priceImpact : Option ℚ := none
  slippageBps : Option ℤ := none
  computeUnits : Option ℤ := none
  timeToRoute : Option ℤ := none
deriving Repr, DecidableEq

/-- The `RouteAnalysis` dataclass (identical in `jupiter_smart_swap.py` and
`backend/models/route_analysis.py`). -/
structure RouteAnalysis where
  route_id : String
  out_amount : ℤ
  hops : ℕ
  platforms : List String
  price_impact : ℚ
  efficiency_score : ℚ
  compute_units : ℤ
  time_to_route : ℤ
  gas_estimate : ℚ
  total_fee : ℚ
deriving Repr, DecidableEq, Inhabited

/-- The `SwapMode` enum (identical in `jupiter_smart_swap.py` and
`backend/models/swap_request.py`). -/
inductive SwapMode
  | analyze_only
  | auto_swap
  | manual_mode
deriving Repr, DecidableEq

/-- The `.value` string of a `SwapMode` member. -/
def SwapMode.value : SwapMode → String
  | .analyze_only => "analyze_only"
  | .auto_swap => "auto_swap"
  | .manual_mode => "manual_mode"

/-- The `SwapRequest` dataclass of `jupiter_smart_swap.py`
(`auto_select_criteria` is a raw string there). -/
structure SwapRequestA where
  input_mint : String
  output_mint : String
  amount : ℤ
  slippage_bps : ℤ := 50
  user_public_key : String := ""
  wrap_unwrap_sol : Bool := true
  mode : SwapMode := .analyze_only
  auto_select_criteria : String := "efficiency"
deriving Repr, DecidableEq

/-- One iteration of the analysis loop in `JupiterSmartSwap.analyze_routes`
(`jupiter_smart_swap.py`, lines 88–127): per-step platform labels with
`"unknown"` fallback, numeric fields defaulting to 0, platforms collapsed by
`list(set(...))`, score dispatched on the raw criteria string with a silent
fall-through to efficiency. -/
def analyzeRouteA (request : SwapRequestA) (route : RawRoute) : RouteAnalysis :=
  let platforms := (route.swapSteps.getD []).map
    (fun step => step.platform.getD "unknown")
  let hops : ℕ := (route.swapSteps.getD []).length
  let price_impact := route.priceImpact.getD 0
  let out_amount := route.outAmount.getD 0
  let compute_units := route.computeUnits.getD 0
  let time_to_route := route.timeToRoute.getD 0
  let efficiency_score :=
    if request.auto_select_criteria = "efficiency" then
      calculate_efficiency_score hops price_impact platforms request.slippage_bps
    else if request.auto_select_criteria = "speed" then
      calculate_speed_score hops time_to_route compute_units
    else if request.auto_select_criteria = "cost" then
      calculate_cost_score price_impact compute_units out_amount
    else
      calculate_efficiency_score hops price_impact platforms request.slippage_bps
  let gas_estimate : ℚ := (compute_units : ℚ) * 0.000001
  let total_fee : ℚ := gas_estimate + price_impact * (out_amount : ℚ) / 1000000
  { route_id := route.routeId.getD ""
    out_amount := out_amount
    hops := hops
    platforms := pySet platforms
    price_impact := price_impact
    efficiency_score := efficiency_score
    compute_units := compute_units
    time_to_route := time_to_route
    gas_estimate := gas_estimate
    total_fee := total_fee }

/-- `JupiterSmartSwap.analyze_routes`: analyze every raw route, then sort by
score, highest first (Python's stable `list.sort(reverse=True)`). -/
def analyze_routesA (routes : List RawRoute) (request : SwapRequestA) :
    List RouteAnalysis :=
  pySortDesc (fun r => r.efficiency_score) (routes.map (analyzeRouteA request))

/-- `PLATFORM_NAMES` from `route_efficiency_analyzer/constants.py`. -/
def PLATFORM_NAMES : List (String × String) :=
  [("orca", "Orca"), ("raydium", "Raydium"), ("serum", "Serum"),
   ("lifinity", "Lifinity"), ("crema", "Crema"), ("mercurial", "Mercurial"),
   ("stepn", "STEPN"), ("saber", "Saber"), ("aldrin", "Aldrin"),
   ("cropper", "Cropper"), ("invariant", "Invariant"), ("goosefx", "GooseFX"),
   ("deltafi", "DeltaFi"), ("marinade", "Marinade"), ("step", "Step"),
   ("sencha", "Sencha"), ("saros", "Saros"), ("cykura", "Cykura"),
   ("phoenix", "Phoenix"), ("meteora", "Meteora"), ("openbook", "OpenBook"),
   ("balansol", "Balansol"), ("pump", "Pump"), ("whirlpool", "Whirlpool"),
   ("mango", "Mango"), ("dexlab", "Dexlab"), ("lifinity_v2", "Lifinity V2"),
   ("raydium_clmm", "Raydium CLMM"), ("orca_whirlpool", "Orca Whirlpool"),
   ("meteora_dlmm", "Meteora DLMM"), ("invariant_amm", "Invariant AMM"),
   ("goosefx_clmm", "GooseFX CLMM"), ("deltafi_clmm", "DeltaFi CLMM"),
   ("balansol_amm", "Balansol AMM"), ("crema_amm", "Crema AMM"),
   ("lifinity_amm", "Lifinity AMM"), ("raydium_amm", "Raydium AMM"),
   ("serum_amm", "Serum AMM"), ("stepn_amm", "STEPN AMM"),
   ("saber_amm", "Saber AMM"), ("aldrin_amm", "Aldrin AMM"),
   ("cropper_amm", "Cropper AMM"), ("step_amm", "Step AMM"),
   ("sencha_amm", "Sencha AMM"), ("saros_amm", "Saros AMM"),
   ("cykura_amm", "Cykura AMM"), ("phoenix_amm", "Phoenix AMM"),
   ("openbook_amm", "OpenBook AMM"), ("pump_amm", "Pump AMM"),
   ("mango_amm", "Mango AMM"), ("dexlab_amm", "Dexlab AMM")]

/-- Python `str.title()`: uppercase each alphabetic character that follows a
non-alphabetic one, lowercase the other alphabetic characters. -/
def pyTitleGo : Bool → List Char → List Char
  | _, [] => []
  | prevAlpha, c :: cs =>
    if c.isAlpha then
      (if prevAlpha then c.toLower else c.toUpper) :: pyTitleGo true cs
    else
      c :: pyTitleGo false cs

def pyTitle (s : String) : String := ⟨pyTitleGo false s.data⟩

/-- `format_platform_name` from `route_efficiency_analyzer/utils.py`:
`PLATFORM_NAMES.get(platform.lower(), platform.title())`. -/
def format_platform_name (platform : String) : String :=
  match PLATFORM_NAMES.lookup platform.toLower with
  | some name => name
  | none => pyTitle platform

/-- `format_route_summary` from `route_efficiency_analyzer/utils.py`. -/
def format_route_summary (route_data : RawRoute) : ScoredRoute :=
  let platforms := (route_data.swapSteps.getD []).map
    (fun step => format_platform_name (step.platform.getD "unknown"))
  { route_id := route_data.routeId.getD "N/A"
    out_amount := route_data.outAmount.getD 0
    hops := (route_data.swapSteps.getD []).length
    platforms := pySet platforms
    price_impact := route_data.priceImpact.getD 0
    slippage_bps := route_data.slippageBps.getD 0
    compute_units := route_data.computeUnits.getD 0
    time_to_route := route_data.timeToRoute.getD 0
    efficiency_score := 0 }

/-! Backend raw-route shape (`backend/services/jupiter_api.py`): steps under
`routePlan`, each with nested `swapInfo.amm.label`. -/

structure AmmInfo where
  label : String
deriving Repr, DecidableEq

structure SwapInfo where
  amm : Option AmmInfo
deriving Repr, DecidableEq

structure PlanStep where
  swapInfo : Option SwapInfo
deriving Repr, DecidableEq

structure RawRouteB where
  routeId : Option String := none
  outAmount : Option ℤ := none
  routePlan : Option (List PlanStep) := none
  priceImpactPct : Option ℚ := none
  computeUnitPriceMicroLamports : Option ℤ := none
  timeTaken : Option ℤ := none
  otherAmountThreshold : Option ℤ := none
deriving Repr, DecidableEq

/-- A Jupiter quote response body as read by `parse_routes` (`data` key). -/
structure QuoteB where
  data : Option (List RawRouteB)
deriving Repr, DecidableEq

/-- `JupiterAPIClient.parse_routes` from `backend/services/jupiter_api.py`.
The platform loop appends `step["swapInfo"]["amm"]["label"]` only when
`swapInfo` and `amm` are present — no fallback label, no deduplication.
`priceImpactPct` is divided by 100; `efficiency_score` starts at 0. -/
def parse_routes (quote_response : QuoteB) : List RouteAnalysis :=
  match quote_response.data with
  | none => []
  | some data => data.map (fun route =>
    { route_id := route.routeId.getD ""
      out_amount := route.outAmount.getD 0
      hops := (route.routePlan.getD []).length
      platforms := (route.routePlan.getD []).filterMap
        (fun step => (step.swapInfo.bind (fun si => si.amm)).map
          (fun amm => amm.label))
      price_impact := route.priceImpactPct.getD 0 / 100
      efficiency_score := 0
      compute_units := route.computeUnitPriceMicroLamports.getD 0
      time_to_route := route.timeTaken.getD 0
      gas_estimate := ((route.computeUnitPriceMicroLamports.getD 0 : ℤ) : ℚ) / 1000000
      total_fee := ((route.otherAmountThreshold.getD 0 : ℤ) : ℚ) / 1000000 })

/-! ## Theorems for the normalizer claim -/

/-- A quote whose single route touches the same platform on both of its two
steps, plus one step with no `amm` record. -/
def quoteDup : QuoteB :=
  ⟨some [{ routeId := some "rdup", outAmount := some 1000000,
           routePlan := some [⟨some ⟨some ⟨"Raydium"⟩⟩⟩, ⟨some ⟨some ⟨"Raydium"⟩⟩⟩, ⟨some ⟨none⟩⟩],
           priceImpactPct := some (1/10),
           computeUnitPriceMicroLamports := some 5000,
           timeTaken := some 150, otherAmountThreshold := some 50000 }]⟩

/-- C8 counterexample: the backend normalizer `parse_routes` keeps duplicate
platform labels (and substitutes no `"unknown"` for the label-less third
step), so the claim's "no duplicates" fails on it. -/
theorem parse_routes_keeps_duplicates :
    ((parse_routes quoteDup).headI).platforms = ["Raydium", "Raydium"] ∧
      ¬ (["Raydium", "Raydium"] : List String).Nodup := by
  constructor
  · rfl
  · simp

/-- C8 (amended): the normalizers of `jupiter_smart_swap.py` and
`route_efficiency_analyzer/utils.py` read each step's platform label with an
`"unknown"` fallback and return a duplicate-free platforms collection, and
in all three normalizers the missing numeric fields default to 0 and a
missing step list to empty (normalization is total); the backend
`parse_routes`, however, collects labels only from steps carrying a
`swapInfo.amm` record — substituting nothing for the others — and keeps
duplicates. -/
theorem normalizer_platforms_spec (req : SwapRequestA) (raw : RawRoute)
    (rawB : RawRouteB) :
    (analyzeRouteA req raw).platforms.Nodup ∧
    (analyzeRouteA req raw).platforms =
      pySet ((raw.swapSteps.getD []).map (fun s => s.platform.getD "unknown")) ∧
    (format_route_summary raw).platforms.Nodup ∧
    (format_route_summary raw).platforms =
      pySet ((raw.swapSteps.getD []).map
        (fun s => format_platform_name (s.platform.getD "unknown"))) ∧
    (raw.swapSteps = none →
      (analyzeRouteA req raw).hops = 0 ∧ (analyzeRouteA req raw).platforms = [] ∧
      (format_route_summary raw).hops = 0 ∧
      (format_route_summary raw).platforms = []) ∧
    (raw.outAmount = none → (analyzeRouteA req raw).out_amount = 0 ∧
      (format_route_summary raw).out_amount = 0) ∧
    (raw.priceImpact = none → (analyzeRouteA req raw).price_impact = 0 ∧
      (format_route_summary raw).price_impact = 0) ∧
    (raw.computeUnits = none → (analyzeRouteA req raw).compute_units = 0 ∧
      (format_route_summary raw).compute_units = 0) ∧
    (raw.timeToRoute = none → (analyzeRouteA req raw).time_to_route = 0 ∧
      (format_route_summary raw).time_to_route = 0) ∧
    (∀ routes, parse_routes ⟨some routes⟩ = routes.map (fun route =>
      { route_id := route.routeId.getD ""
        out_amount := route.outAmount.getD 0
        hops := (route.routePlan.getD []).length
        platforms := (route.routePlan.getD []).filterMap
          (fun step => (step.swapInfo.bind (fun si => si.amm)).map
            (fun amm => amm.label))
        price_impact := route.priceImpactPct.getD 0 / 100
        efficiency_score := 0
        compute_units := route.computeUnitPriceMicroLamports.getD 0
        time_to_route := route.timeTaken.getD 0
        gas_estimate := ((route.computeUnitPriceMicroLamports.getD 0 : ℤ) : ℚ) / 1000000
        total_fee := ((route.otherAmountThreshold.getD 0 : ℤ) : ℚ) / 1000000 })) ∧
    (rawB.outAmount = none →
      (parse_routes ⟨some [rawB]⟩).headI.out_amount = 0) ∧
    (rawB.routePlan = none →
      (parse_routes ⟨some [rawB]⟩).headI.hops = 0 ∧
      (parse_routes ⟨some [rawB]⟩).headI.platforms = []) := by
  refine ⟨List.nodup_dedup _, rfl, List.nodup_dedup _, rfl, ?_, ?_, ?_, ?_, ?_,
    fun _ => rfl, ?_, ?_⟩ <;> intro h <;>
    simp [analyzeRouteA, format_route_summary, parse_routes, pySet, h]

/-- Witness for C8 (amended) at a concrete request, an all-absent raw route
and an all-absent backend raw route. -/
theorem normalizer_platforms_spec_witness :
    (analyzeRouteA ⟨"SOL", "USDC", 1000000, 50, "", true, .analyze_only,
        "efficiency"⟩ {}).platforms = [] ∧
      (parse_routes ⟨some [{}]⟩).headI.hops = 0 := by
  constructor
  · exact ((normalizer_platforms_spec ⟨"SOL", "USDC", 1000000, 50, "", true,
      .analyze_only, "efficiency"⟩ {} {}).2.2.2.2.1 rfl).2.1
  · exact ((normalizer_platforms_spec ⟨"SOL", "USDC", 1000000, 50, "", true,
      .analyze_only, "efficiency"⟩ {} {}).2.2.2.2.2.2.2.2.2.2.2 rfl).1

/-! ## Swap orchestrators -/

/-- Does `pat` start the character list `s`? -/
def leadsWith : List Char → List Char → Bool
  | [], _ => true
  | _ :: _, [] => false
  | a :: as, b :: bs => a == b && leadsWith as bs

/-- Does `pat` occur as a contiguous run inside `s`? -/
def hasSub (pat : List Char) : List Char → Bool
  | [] => leadsWith pat []
  | c :: rest => leadsWith pat (c :: rest) || hasSub pat rest

/-- Does the string mention the word "key"? -/
def mentionsKey (s : String) : Bool := hasSub "key".toList s.toList

/-- The `SelectionCriteria` enum from `backend/models/swap_request.py`. -/
inductive SelectionCriteria
  | efficiency
  | speed
  | cost
deriving Repr, DecidableEq

/-- The `.value` string of a `SelectionCriteria` member. -/
def SelectionCriteria.value : SelectionCriteria → String
  | .efficiency => "efficiency"
  | .speed => "speed"
  | .cost => "cost"

/-- The backend `SwapRequest` dataclass (`backend/models/swap_request.py`):
`user_public_key` is `Optional[str]`, the criteria a closed enum. -/
structure SwapRequestB where
  input_mint : String
  output_mint : String
  amount : ℤ
  slippage_bps : ℤ := 50
  user_public_key : Option String := none
  wrap_unwrap_sol : Bool := true
  mode : SwapMode := .analyze_only
  auto_select_criteria : SelectionCriteria := .efficiency
deriving Repr, DecidableEq

/-- Python truthiness of an `Optional[str]`: falsy for `None` and `""`. -/
def pyTruthyStr : Option String → Bool
  | none => false
  | some s => !(s == "")

/-- The swap-transaction record returned by the external `/swap` call; the
orchestrators never inspect it, so it is an uninterpreted payload. -/
structure SwapTx where
  payload : String
deriving Repr, DecidableEq

/-- The `swap_result` attached by the backend orchestrator: the literal demo
dict, or the transaction obtained from the external call. -/
inductive SwapResult
  | demo (txid : String) (route_used : String) (amount_out : ℤ)
  | live (tx : SwapTx)
deriving Repr, DecidableEq

/-- The backend `SwapResponse` dataclass
(`backend/models/swap_request.py`). -/
structure SwapResponse where
  success : Bool
  message : String
  mode : String
  total_routes_found : ℕ
  best_route : Option RouteAnalysis := none
  all_routes : Option (List RouteAnalysis) := none
  selected_route : Option RouteAnalysis := none
  swap_result : Option SwapResult := none
  error : Option String := none
  demo_mode : Bool := false
deriving Repr, DecidableEq

/-- `get_mock_quote_response` from `backend/services/jupiter_api.py`
(numeric JSON strings already read as numbers, as `parse_routes`'s
`int`/`float` conversions produce). -/
def get_mock_quote_response : QuoteB :=
  ⟨some [{ routeId := some "route_1", outAmount := some 1000000,
           routePlan := some [⟨some ⟨some ⟨"Raydium"⟩⟩⟩],
           priceImpactPct := some (1/10),
           computeUnitPriceMicroLamports := some 5000,
           timeTaken := some 150, otherAmountThreshold := some 50000 },
         { routeId := some "route_2", outAmount := some 980000,
           routePlan := some [⟨some ⟨some ⟨"Orca"⟩⟩⟩],
           priceImpactPct := some (2/10),
           computeUnitPriceMicroLamports := some 3000,
           timeTaken := some 100, otherAmountThreshold := some 30000 }]⟩

/-- The scoring pass plus descending stable sort of the backend orchestrator
(`backend/services/route_analyzer.py`, lines 61–75). -/
def backendRanked (request : SwapRequestB) (routes : List RouteAnalysis) :
    List RouteAnalysis :=
  pySortDesc (fun r => r.efficiency_score)
    (routes.map (fun route =>
      { route with efficiency_score :=
          (get_score_by_criteria request.auto_select_criteria.value route.hops
            route.price_impact route.platforms request.slippage_bps
            route.time_to_route route.compute_units route.out_amount) }))

/-- `RouteAnalyzer.analyze_routes` from `backend/services/route_analyzer.py`.
The two network effects are explicit parameters: `fetched` is what the quote
call produced (`none` models a transport failure or falsy body; ignored in
demo mode, where the mock quote is used), and `swap_transaction` is what the
swap-transaction call would produce if reached.  Every branch of the source
returns a `SwapResponse`; the `except` clause is unreachable in this
effect-free embedding. -/
def RouteAnalyzer.analyze_routes (use_demo_mode : Bool)
    (request : SwapRequestB) (fetched : Option QuoteB)
    (swap_transaction : Option SwapTx) : SwapResponse :=
  let quote_response :=
    if use_demo_mode then some get_mock_quote_response else fetched
  let demo_mode := use_demo_mode
  match quote_response with
  | none =>
    { success := false
      message := "No routes found or API error"
      mode := request.mode.value
      total_routes_found := 0
      error := some "Failed to fetch routes from Jupiter API" }
  | some qr =>
    let routes := parse_routes qr
    if routes.isEmpty then
      { success := false
        message := "No valid routes found"
        mode := request.mode.value
        total_routes_found := 0
        error := some "No routes available for this swap" }
    else
      let ranked := backendRanked request routes
      let best_route := ranked.head?
      match request.mode with
      | .analyze_only =>
        { success := true
          message := "Found " ++ toString ranked.length ++
            " routes. Analysis complete."
          mode := request.mode.value
          total_routes_found := ranked.length
          best_route := best_route
          all_routes := some ranked
          demo_mode := demo_mode }
      | .auto_swap =>
        if pyTruthyStr request.user_public_key = false then
          { success := false
            message := "User public key required for auto-swap"
            mode := request.mode.value
            total_routes_found := ranked.length
            best_route := best_route
            all_routes := some ranked
            error := some "Missing user public key" }
        else if demo_mode then
          { success := true
            message := "Auto-swap executed using best route. Found " ++
              toString ranked.length ++ " routes."
            mode := request.mode.value
            total_routes_found := ranked.length
            best_route := best_route
            all_routes := some ranked
            selected_route := best_route
            swap_result := some (.demo "demo_transaction_123"
              ranked.headI.route_id ranked.headI.out_amount)
            demo_mode := demo_mode }
        else
          match swap_transaction with
          | none =>
            { success := false
              message := "Failed to create swap transaction"
              mode := request.mode.value
              total_routes_found := ranked.length
              best_route := best_route
              all_routes := some ranked
              error := some "Swap transaction creation failed" }
          | some tx =>
            { success := true
              message := "Auto-swap executed using best route. Found " ++
                toString ranked.length ++ " routes."
              mode := request.mode.value
              total_routes_found := ranked.length
              best_route := best_route
              all_routes := some ranked
              selected_route := best_route
              swap_result := some (.live tx)
              demo_mode := demo_mode }
      | .manual_mode =>
        { success := true
          message := "Found " ++ toString ranked.length ++
            " routes for manual selection."
          mode := request.mode.value
          total_routes_found := ranked.length
          best_route := best_route
          all_routes := some ranked
          demo_mode := demo_mode }

/-- A quote body as read by `JupiterSmartSwap.process_swap_request`
(`routes` key). -/
structure QuoteA where
  routes : Option (List RawRoute)
deriving Repr, DecidableEq

/-- The dict returned by the mock `JupiterSmartSwap.execute_swap`; the
timestamp is the caller-supplied clock reading. -/
structure ExecResult where
  success : Bool
  transaction_id : String
  message : String
  timestamp : ℤ
deriving Repr, DecidableEq

/-- `JupiterSmartSwap.execute_swap` (mock implementation). -/
def execute_swap (now : ℤ) : ExecResult :=
  { success := true
    transaction_id := "txn_" ++ toString now
    message := "Swap executed successfully"
    timestamp := now }

/-- The response dict assembled by `JupiterSmartSwap.process_swap_request`;
a key omitted by a code path is `none`. -/
structure SmartSwapResponse where
  success : Bool
  mode : String
  error : Option String := none
  message : Option String := none
  all_routes : Option (List RouteAnalysis) := none
  total_routes_found : Option ℕ := none
  best_route : Option RouteAnalysis := none
  selected_route : Option RouteAnalysis := none
  swap_result : Option ExecResult := none
  top_routes : Option (List RouteAnalysis) := none
deriving Repr, DecidableEq

/-- `JupiterSmartSwap.process_swap_request` from `jupiter_smart_swap.py`.
Network effects are explicit: `quote` is the outcome of `get_quote`
(`Except.error` models a raised transport error, routed to the function's
`except` clause) and `swap_tx` the outcome of `get_swap_transaction`; `now`
is the clock reading used by the mock `execute_swap`. -/
def process_swap_request (request : SwapRequestA)
    (quote : Except String QuoteA) (swap_tx : Except String SwapTx)
    (now : ℤ) : SmartSwapResponse :=
  match quote with
  | .error e =>
    { success := false
      error := some ("Swap processing failed: " ++ e)
      mode := request.mode.value }
  | .ok quote_data =>
    let routes := quote_data.routes.getD []
    if routes.isEmpty then
      { success := false
        error := some "No routes found for the given parameters"
        mode := request.mode.value }
    else
      let analyzed_routes := analyze_routesA routes request
      match request.mode with
      | .analyze_only =>
        { success := true
          mode := request.mode.value
          all_routes := some analyzed_routes
          total_routes_found := some analyzed_routes.length
          message := some ("Found " ++ toString analyzed_routes.length ++
            " routes. Analysis complete.")
          best_route := analyzed_routes.head? }
      | .auto_swap =>
        if request.user_public_key = "" then
          { success := false
            error := some "Wallet public key required for auto-swap"
            mode := request.mode.value }
        else
          match swap_tx with
          | .error e =>
            { success := false
              error := some ("Swap processing failed: " ++ e)
              mode := request.mode.value }
          | .ok _swap_data =>
            { success := true
              mode := request.mode.value
              all_routes := some analyzed_routes
              total_routes_found := some analyzed_routes.length
              selected_route := analyzed_routes.head?
              swap_result := some (execute_swap now)
              message := some "Auto-swap completed successfully!" }
      | .manual_mode =>
        { success := true
          mode := request.mode.value
          all_routes := some analyzed_routes
          total_routes_found := some analyzed_routes.length
          message := some ("Found " ++ toString analyzed_routes.length ++
            " routes. Please select one to execute.")
          top_routes := some (pySlice analyzed_routes 5) }

/-! ## Theorems for the orchestrator claims -/

/-- A concrete raw route with one step. -/
def rawOne : RawRoute :=
  { routeId := some "r1", outAmount := some 1000000,
    swapSteps := some [⟨some "Raydium"⟩], priceImpact := some (1/1000),
    computeUnits := some 5000, timeToRoute := some 150 }

/-- A concrete auto-swap request with no wallet key (the dataclass default
`user_public_key = ""`). -/
def reqAutoNoKey : SwapRequestA :=
  { input_mint := "SOL", output_mint := "USDC", amount := 1000000,
    mode := .auto_swap }

/-- A concrete analyze-only request for the standalone processor. -/
def reqAnalyzeA : SwapRequestA :=
  { input_mint := "SOL", output_mint := "USDC", amount := 1000000 }

/-- A concrete backend auto-swap request with no wallet key. -/
def reqAutoB : SwapRequestB :=
  { input_mint := "SOL", output_mint := "USDC", amount := 1000000,
    mode := .auto_swap }

/-- C3 counterexample: the standalone processor's missing-key failure
response carries neither `all_routes` nor `best_route`, although a valid
route set was found and analyzed. -/
theorem smartswap_missing_key_drops_ranking :
    (process_swap_request reqAutoNoKey (Except.ok ⟨some [rawOne]⟩)
        (Except.ok ⟨"tx"⟩) 0).all_routes = none ∧
    (process_swap_request reqAutoNoKey (Except.ok ⟨some [rawOne]⟩)
        (Except.ok ⟨"tx"⟩) 0).best_route = none ∧
    (process_swap_request reqAutoNoKey (Except.ok ⟨some [rawOne]⟩)
        (Except.ok ⟨"tx"⟩) 0).success = false ∧
    (process_swap_request reqAutoNoKey (Except.ok ⟨some [rawOne]⟩)
        (Except.ok ⟨"tx"⟩) 0).error =
      some "Wallet public key required for auto-swap" :=
  ⟨rfl, rfl, rfl, rfl⟩

/-- C3 (amended): on an AutoSwap request with an absent (falsy) signer key
and a non-empty valid route set, both orchestrators fail with an error
mentioning the key; the backend response still carries `all_routes` and
`best_route` from the ranking already computed, while the standalone
processor's failure response carries neither. -/
theorem autoswap_missing_signer_failure (req : SwapRequestB) (qr : QuoteB)
    (tx : Option SwapTx) (reqA : SwapRequestA) (quoteA : QuoteA)
    (txA : Except String SwapTx) (now : ℤ)
    (hmode : req.mode = .auto_swap)
    (hkey : pyTruthyStr req.user_public_key = false)
    (hroutes : parse_routes qr ≠ [])
    (hmodeA : reqA.mode = .auto_swap) (hkeyA : reqA.user_public_key = "")
    (hroutesA : quoteA.routes.getD [] ≠ []) :
    (RouteAnalyzer.analyze_routes false req (some qr) tx).success = false ∧
    (RouteAnalyzer.analyze_routes false req (some qr) tx).error =
      some "Missing user public key" ∧
    mentionsKey "Missing user public key" = true ∧
    (RouteAnalyzer.analyze_routes false req (some qr) tx).all_routes =
      some (backendRanked req (parse_routes qr)) ∧
    (RouteAnalyzer.analyze_routes false req (some qr) tx).best_route =
      (backendRanked req (parse_routes qr)).head? ∧
    (process_swap_request reqA (Except.ok quoteA) txA now).success = false ∧
    (process_swap_request reqA (Except.ok quoteA) txA now).error =
      some "Wallet public key required for auto-swap" ∧
    mentionsKey "Wallet public key required for auto-swap" = true ∧
    (process_swap_request reqA (Except.ok quoteA) txA now).all_routes =
      none ∧
    (process_swap_request reqA (Except.ok quoteA) txA now).best_route =
      none := by
  have hf : (parse_routes qr).isEmpty = false := by
    cases hpr : parse_routes qr with
    | nil => exact absurd hpr hroutes
    | cons a l => rfl
  have hfA : (quoteA.routes.getD []).isEmpty = false := by
    cases hpr : quoteA.routes.getD [] with
    | nil => exact absurd hpr hroutesA
    | cons a l => rfl
  unfold RouteAnalyzer.analyze_routes process_swap_request
  simp [hmode, hkey, hf, hmodeA, hkeyA, hfA, mentionsKey, hasSub, leadsWith]

/-- Witness for C3 (amended) at concrete requests and quotes. -/
theorem autoswap_missing_signer_failure_witness :
    (RouteAnalyzer.analyze_routes false reqAutoB (some quoteDup)
        none).success = false ∧
    (process_swap_request reqAutoNoKey (Except.ok ⟨some [rawOne]⟩)
        (Except.ok ⟨"tx"⟩) 7).all_routes = none :=
  ⟨(autoswap_missing_signer_failure reqAutoB quoteDup none reqAutoNoKey
      ⟨some [rawOne]⟩ (Except.ok ⟨"tx"⟩) 7 rfl rfl
      (by simp [parse_routes, quoteDup]) rfl rfl (by simp)).1,
   (autoswap_missing_signer_failure reqAutoB quoteDup none reqAutoNoKey
      ⟨some [rawOne]⟩ (Except.ok ⟨"tx"⟩) 7 rfl rfl
      (by simp [parse_routes, quoteDup]) rfl rfl
      (by simp)).2.2.2.2.2.2.2.2.1⟩

/-- C4 counterexample: the standalone processor's zero-candidate failure
response omits `total_routes_found` entirely instead of carrying 0. -/
theorem smartswap_no_routes_omits_total :
    (process_swap_request reqAnalyzeA (Except.ok ⟨some []⟩)
        (Except.ok ⟨"tx"⟩) 0).total_routes_found = none ∧
    (process_swap_request reqAnalyzeA (Except.ok ⟨some []⟩)
        (Except.ok ⟨"tx"⟩) 0).success = false ∧
    (process_swap_request reqAnalyzeA (Except.ok ⟨some []⟩)
        (Except.ok ⟨"tx"⟩) 0).error =
      some "No routes found for the given parameters" :=
  ⟨rfl, rfl, rfl⟩

/-- C4 (amended): with zero candidates from the quote call (transport
failure, falsy body, or an empty/absent candidate list, also after
validation), the backend returns `success = false`, a cause-describing
error and `total_routes_found = 0`; the standalone processor also returns
`success = false` with a cause-describing error, but omits
`total_routes_found` from its response. -/
theorem no_routes_failure_response (req : SwapRequestB) (tx : Option SwapTx)
    (qr : QuoteB) (reqA : SwapRequestA) (quoteA : QuoteA)
    (txA : Except String SwapTx) (now : ℤ) (e : String)
    (hqr : parse_routes qr = []) (hA : quoteA.routes.getD [] = []) :
    (RouteAnalyzer.analyze_routes false req none tx).success = false ∧
    (RouteAnalyzer.analyze_routes false req none tx).total_routes_found = 0 ∧
    (RouteAnalyzer.analyze_routes false req none tx).error =
      some "Failed to fetch routes from Jupiter API" ∧
    (RouteAnalyzer.analyze_routes false req (some qr) tx).success = false ∧
    (RouteAnalyzer.analyze_routes false req (some qr)
      tx).total_routes_found = 0 ∧
    (RouteAnalyzer.analyze_routes false req (some qr) tx).error =
      some "No routes available for this swap" ∧
    (process_swap_request reqA (Except.error e) txA now).success = false ∧
    (process_swap_request reqA (Except.error e) txA now).error =
      some ("Swap processing failed: " ++ e) ∧
    (process_swap_request reqA (Except.ok quoteA) txA now).success = false ∧
    (process_swap_request reqA (Except.ok quoteA) txA now).error =
      some "No routes found for the given parameters" ∧
    (process_swap_request reqA (Except.ok quoteA) txA
      now).total_routes_found = none := by
  unfold RouteAnalyzer.analyze_routes process_swap_request
  simp [hqr, hA]

/-- Witness for C4 (amended) at concrete requests and empty quotes. -/
theorem no_routes_failure_response_witness :
    (RouteAnalyzer.analyze_routes false reqAutoB (some ⟨none⟩)
        none).total_routes_found = 0 ∧
    (process_swap_request reqAnalyzeA (Except.ok ⟨some []⟩)
        (Except.ok ⟨"tx"⟩) 7).total_routes_found = none :=
  ⟨(no_routes_failure_response reqAutoB none ⟨none⟩ reqAnalyzeA ⟨some []⟩
      (Except.ok ⟨"tx"⟩) 7 "timeout" rfl rfl).2.2.2.2.1,
   (no_routes_failure_response reqAutoB none ⟨none⟩ reqAnalyzeA ⟨some []⟩
      (Except.ok ⟨"tx"⟩) 7 "timeout" rfl
      rfl).2.2.2.2.2.2.2.2.2.2⟩

/-- C9: on every path of the backend `RouteAnalyzer.analyze_routes` — demo
or live, every mode, every quote/transaction outcome — the produced
`SwapResponse` has `error` present exactly when `success = false`. -/
theorem swap_response_error_iff_failure (demo : Bool) (req : SwapRequestB)
    (fetched : Option QuoteB) (tx : Option SwapTx) :
    (RouteAnalyzer.analyze_routes demo req fetched tx).error ≠ none ↔
      (RouteAnalyzer.analyze_routes demo req fetched tx).success = false := by
  unfold RouteAnalyzer.analyze_routes
  cases demo <;> cases fetched <;> cases tx <;>
    cases hm : req.mode <;>
    cases hk : pyTruthyStr req.user_public_key <;>
    simp [hm, hk] <;>
    split <;> simp

end RouteEff
